import Mathlib

/-!
# Shallow embedding of the `mediatech_de_trial_task` pipeline

Lean models of the pipeline stages of the repository:

* `csv_writer.write_trends_csv` — idempotent append/dedup CSV persister;
* `serpapi_retry.fetch_with_retry` (with `_check_response_for_errors` and
  `_add_jitter`) — retry-wrapped API client;
* `normalize.normalize_trends_response` — response flattener;
* `validation.validate_trends_data` — schema/coverage/anomaly validator.

Machine-level details that do not affect the verified properties are
modelled as follows: the CSV file on disk is an in-memory list of rows
(`Option` distinguishes a missing file), pandas `DataFrame`s are lists of
records, Python strings are Lean `String`s compared through their
code-point lists, Python `None`/absent keys are `Option.none`, and the
uniform random jitter is an explicitly quantified rational.
-/

namespace DeTrial

/-- One flattened trend row, mirroring `types.TrendRecord`
(`query`, `location`, `date`, `value`, `extracted_value`, `created_at`). -/
structure TrendRecord where
  query : String
  location : String
  date : String
  value : String
  extracted_value : Int
  created_at : String
deriving DecidableEq, Repr

/-! ## `csv_writer.write_trends_csv` -/

/-- The composite key of `drop_duplicates(subset=["query", "date", "location"])`. -/
def dedupKey (r : TrendRecord) : String × String × String :=
  (r.query, r.date, r.location)

/-- Row comparison used by `combined.sort_values("created_at")`: pandas compares
the `created_at` strings, i.e. code-point-lexicographically. -/
def createdAtLe (a b : TrendRecord) : Prop :=
  a.created_at.data ≤ b.created_at.data

instance : DecidableRel createdAtLe :=
  fun a b => inferInstanceAs (Decidable (a.created_at.data ≤ b.created_at.data))

instance : IsTotal TrendRecord createdAtLe :=
  ⟨fun a b => le_total a.created_at.data b.created_at.data⟩

instance : IsTrans TrendRecord createdAtLe :=
  ⟨fun _ _ _ hab hbc => le_trans hab hbc⟩

/-- Model of `combined.sort_values("created_at")`: sort rows by the `created_at` column,
ascending.  (The model fixes a stable sort; the properties proved below only
involve rows whose `created_at` values are strictly ordered.) -/
def sortByCreatedAt (rows : List TrendRecord) : List TrendRecord :=
  List.insertionSort createdAtLe rows

/-- Model of `drop_duplicates(subset=["query", "date", "location"], keep="last")`:
a row is kept iff no later row carries the same composite key; kept rows stay
in order. -/
def dropDuplicatesKeepLast : List TrendRecord → List TrendRecord
  | [] => []
  | r :: rs =>
      if rs.any (fun s => decide (dedupKey s = dedupKey r)) then
        dropDuplicatesKeepLast rs
      else
        r :: dropDuplicatesKeepLast rs

/-- Shallow model of `csv_writer.write_trends_csv`.  The destination CSV file
is `Option (List TrendRecord)` (`none` = the file does not exist); the result
is the state of the file after the call.  Empty `records` is a no-op; a
missing file receives the new records as written; an existing file is
replaced by the concatenation, sorted by `created_at` and deduplicated on
`(query, date, location)` keeping the last occurrence. -/
def write_trends_csv (records : List TrendRecord)
    (store : Option (List TrendRecord)) : Option (List TrendRecord) :=
  if records = [] then store
  else
    match store with
    | none => some records
    | some existing =>
        some (dropDuplicatesKeepLast (sortByCreatedAt (existing ++ records)))

/-- The spec's description of the existing-destination branch: load the
existing rows, append the new rows, sort the combined set by `created_at`
ascending, deduplicate on the composite key `(query, date, location)` keeping
the last occurrence after the sort. -/
def specMergeRows (existing new : List TrendRecord) : List TrendRecord :=
  dropDuplicatesKeepLast (sortByCreatedAt (existing ++ new))

theorem any_key_filter (k : String × String × String) (r : TrendRecord)
    (rs : List TrendRecord) (hk : dedupKey r = k) :
    ((rs.filter (fun s => decide (dedupKey s = k))).any
        (fun s => decide (dedupKey s = dedupKey r)))
      = rs.any (fun s => decide (dedupKey s = dedupKey r)) := by
  induction rs with
  | nil => rfl
  | cons s ss ih =>
      by_cases hs : dedupKey s = k
      · simp [List.filter_cons, List.any_cons, hs, ih]
      · have hne : ¬ dedupKey s = dedupKey r := by
          rw [hk]; exact hs
        simp [List.filter_cons, List.any_cons, hs, hne, ih]

theorem dropDuplicatesKeepLast_cons (r : TrendRecord) (rs : List TrendRecord) :
    dropDuplicatesKeepLast (r :: rs)
      = if rs.any (fun s => decide (dedupKey s = dedupKey r)) then
          dropDuplicatesKeepLast rs
        else r :: dropDuplicatesKeepLast rs := rfl

theorem filter_dropDuplicatesKeepLast (k : String × String × String)
    (l : List TrendRecord) :
    (dropDuplicatesKeepLast l).filter (fun r => decide (dedupKey r = k))
      = dropDuplicatesKeepLast (l.filter (fun r => decide (dedupKey r = k))) := by
  induction l with
  | nil => rfl
  | cons r rs ih =>
      by_cases hr : dedupKey r = k
      · rw [show (r :: rs).filter (fun s => decide (dedupKey s = k))
              = r :: rs.filter (fun s => decide (dedupKey s = k)) by
            simp [List.filter_cons, hr]]
        rw [dropDuplicatesKeepLast_cons, dropDuplicatesKeepLast_cons,
          any_key_filter k r rs hr]
        by_cases ha : rs.any (fun s => decide (dedupKey s = dedupKey r)) = true
        · rw [if_pos ha, if_pos ha]
          exact ih
        · rw [if_neg ha, if_neg ha]
          simp [List.filter_cons, hr, ih]
      · by_cases ha : rs.any (fun s => decide (dedupKey s = dedupKey r)) = true
        · simp [dropDuplicatesKeepLast_cons, List.filter_cons, hr, ha, ih]
        · have ha' : rs.any (fun s => decide (dedupKey s = dedupKey r)) = false := by
            simpa using ha
          simp [dropDuplicatesKeepLast_cons, List.filter_cons, hr, ha', ih]

theorem dropDuplicatesKeepLast_pair (r1 r2 : TrendRecord)
    (h : dedupKey r1 = dedupKey r2) :
    dropDuplicatesKeepLast [r1, r2] = [r2] := by
  rw [dropDuplicatesKeepLast]
  rw [if_pos (by simp [h])]
  rfl

theorem perm_pair_of_sorted {le : TrendRecord → TrendRecord → Prop}
    {l : List TrendRecord} {a b : TrendRecord}
    (hp : l.Perm [a, b]) (hs : l.Pairwise le) (hab : ¬ le b a) (hne : a ≠ b) :
    l = [a, b] := by
  have hlen : l.length = 2 := by simpa using hp.length_eq
  match l, hlen, hp, hs with
  | [x, y], _, hp, hs =>
      have hx : x = a ∨ x = b := by
        have hm := hp.mem_iff.mp (show x ∈ [x, y] by simp)
        simpa using hm
      rcases hx with hxa | hxb
      · subst hxa
        have hyb : [y].Perm [b] := (List.perm_cons x).mp hp
        have hy : y = b := by simpa using List.perm_singleton.mp hyb
        rw [hy]
      · subst hxb
        have h1 : List.Perm [x, y] [x, a] := hp.trans (List.Perm.swap x a [])
        have hya : [y].Perm [a] := (List.perm_cons x).mp h1
        have hy : y = a := by simpa using List.perm_singleton.mp hya
        subst hy
        have hle : le x y := by
          simp only [List.pairwise_cons] at hs
          exact hs.1 y (by simp)
        exact absurd hle hab

theorem filter_sortByCreatedAt_perm (k : String × String × String)
    (l : List TrendRecord) :
    ((sortByCreatedAt l).filter (fun r => decide (dedupKey r = k))).Perm
      (l.filter (fun r => decide (dedupKey r = k))) :=
  List.Perm.filter _ (List.perm_insertionSort createdAtLe l)

theorem filter_sortByCreatedAt_pairwise (k : String × String × String)
    (l : List TrendRecord) :
    ((sortByCreatedAt l).filter (fun r => decide (dedupKey r = k))).Pairwise
      createdAtLe :=
  List.Pairwise.filter _ (List.sorted_insertionSort createdAtLe l)

/-- C1. For an existing destination, `write_trends_csv` stores exactly the
spec's merge (append, sort by `created_at` ascending, drop duplicates on
`(query, date, location)` keeping the last occurrence after the sort); and in
particular, persisting `r1` and then `r2` with the same composite key and
strictly increasing `created_at` into a destination holding no other row of
that key leaves exactly one stored row for that key, namely `r2`. -/
theorem write_trends_csv_idempotent_merge :
    (∀ (existing new : List TrendRecord), new ≠ [] →
        write_trends_csv new (some existing) = some (specMergeRows existing new))
    ∧
    (∀ (E T1 T2 : List TrendRecord) (r1 r2 : TrendRecord),
        write_trends_csv [r1] (some E) = some T1 →
        write_trends_csv [r2] (some T1) = some T2 →
        dedupKey r1 = dedupKey r2 →
        (∀ s ∈ E, dedupKey s ≠ dedupKey r2) →
        r1.created_at.data < r2.created_at.data →
        T2.filter (fun r => decide (dedupKey r = dedupKey r2)) = [r2]) := by
  constructor
  · intro existing new hne
    rw [write_trends_csv, if_neg hne]
    rfl
  · intro E T1 T2 r1 r2 h1 h2 hkey hE hlt
    set k := dedupKey r2 with hk
    have hr1k : dedupKey r1 = k := hkey
    -- the first write leaves [r1] as the only row with key k
    have hT1 : T1 = dropDuplicatesKeepLast (sortByCreatedAt (E ++ [r1])) := by
      rw [write_trends_csv, if_neg (by simp)] at h1
      exact (Option.some_injective _ h1).symm
    have hfiltE : (E ++ [r1]).filter (fun r => decide (dedupKey r = k)) = [r1] := by
      rw [List.filter_append]
      have hE0 : E.filter (fun r => decide (dedupKey r = k)) = [] := by
        rw [List.filter_eq_nil_iff]
        intro s hs
        simpa using hE s hs
      simp [hE0, hr1k]
    have hT1filt : T1.filter (fun r => decide (dedupKey r = k)) = [r1] := by
      rw [hT1, filter_dropDuplicatesKeepLast]
      have hperm := filter_sortByCreatedAt_perm k (E ++ [r1])
      rw [hfiltE] at hperm
      rw [List.perm_singleton.mp hperm]
      rfl
    -- the second write: key-k rows of sorted(T1 ++ [r2]) are [r1, r2] in order
    have hT2 : T2 = dropDuplicatesKeepLast (sortByCreatedAt (T1 ++ [r2])) := by
      rw [write_trends_csv, if_neg (by simp)] at h2
      exact (Option.some_injective _ h2).symm
    have hfilt2 : (T1 ++ [r2]).filter (fun r => decide (dedupKey r = k)) = [r1, r2] := by
      rw [List.filter_append, hT1filt]
      simp [hk]
    have hperm2 := filter_sortByCreatedAt_perm k (T1 ++ [r2])
    rw [hfilt2] at hperm2
    have hne12 : r1 ≠ r2 := by
      intro h
      rw [h] at hlt
      exact lt_irrefl _ hlt
    have hnotle : ¬ createdAtLe r2 r1 := by
      rw [createdAtLe]
      exact not_le.mpr hlt
    have hsorted2 := filter_sortByCreatedAt_pairwise k (T1 ++ [r2])
    have hpair : (sortByCreatedAt (T1 ++ [r2])).filter
        (fun r => decide (dedupKey r = k)) = [r1, r2] :=
      perm_pair_of_sorted hperm2 hsorted2 hnotle hne12
    rw [hT2, filter_dropDuplicatesKeepLast, hpair,
      dropDuplicatesKeepLast_pair r1 r2 hkey]

/-- Concrete run of `write_trends_csv_idempotent_merge`: persisting the key
`("vpn", "W1", "US")` at `created_at = "t1"` and again at `"t2"` into an
initially row-free destination stores exactly one row for that key, the later
one. -/
theorem write_trends_csv_idempotent_merge_witness :
    (write_trends_csv [⟨"vpn", "US", "W1", "5", 5, "t1"⟩] (some []) =
        some (specMergeRows [] [⟨"vpn", "US", "W1", "5", 5, "t1"⟩]))
    ∧
    (List.filter (fun r => decide (dedupKey r = dedupKey ⟨"vpn", "US", "W1", "9", 9, "t2"⟩))
        [⟨"vpn", "US", "W1", "9", 9, "t2"⟩]
      = [⟨"vpn", "US", "W1", "9", 9, "t2"⟩]) := by
  constructor
  · exact write_trends_csv_idempotent_merge.1 [] [⟨"vpn", "US", "W1", "5", 5, "t1"⟩]
      (by simp)
  · exact write_trends_csv_idempotent_merge.2 [] [⟨"vpn", "US", "W1", "5", 5, "t1"⟩]
      [⟨"vpn", "US", "W1", "9", 9, "t2"⟩]
      ⟨"vpn", "US", "W1", "5", 5, "t1"⟩ ⟨"vpn", "US", "W1", "9", 9, "t2"⟩
      (by decide) (by decide) (by decide) (by intro s hs; simp at hs) (by decide)

/-- C10. When the destination file does not exist, `write_trends_csv`
writes the input records verbatim — no sorting, no deduplication — so a
first-time batch with repeated `(query, date, location)` keys stores that many
duplicate rows. -/
theorem write_trends_csv_creates_verbatim (records : List TrendRecord)
    (h : records ≠ []) :
    write_trends_csv records none = some records
    ∧ ∀ k : String × String × String,
        ((write_trends_csv records none).getD []).countP
            (fun r => decide (dedupKey r = k))
          = records.countP (fun r => decide (dedupKey r = k)) := by
  constructor
  · rw [write_trends_csv, if_neg h]
  · intro k
    rw [write_trends_csv, if_neg h]
    rfl

/-- Concrete run of `write_trends_csv_creates_verbatim`: a first-time batch of
two rows sharing one key is stored verbatim, with both duplicate rows. -/
theorem write_trends_csv_creates_verbatim_witness :
    write_trends_csv [⟨"vpn", "US", "W1", "5", 5, "t1"⟩, ⟨"vpn", "US", "W1", "9", 9, "t2"⟩]
        none
      = some [⟨"vpn", "US", "W1", "5", 5, "t1"⟩, ⟨"vpn", "US", "W1", "9", 9, "t2"⟩]
    ∧ ((write_trends_csv
          [⟨"vpn", "US", "W1", "5", 5, "t1"⟩, ⟨"vpn", "US", "W1", "9", 9, "t2"⟩]
          none).getD []).countP
          (fun r => decide (dedupKey r = ("vpn", "W1", "US"))) = 2 := by
  constructor
  · exact (write_trends_csv_creates_verbatim _ (by simp)).1
  · rw [(write_trends_csv_creates_verbatim
      [⟨"vpn", "US", "W1", "5", 5, "t1"⟩, ⟨"vpn", "US", "W1", "9", 9, "t2"⟩]
      (by simp)).2 ("vpn", "W1", "US")]
    decide

/-! ## Response shape (`types.py`)

`total=False` typed-dict keys are `Option` fields; an absent key is `none`. -/

/-- Model of `types.TimelineValue`. -/
structure TimelineValue where
  query : Option String
  value : Option String
  extracted_value : Option Int
deriving DecidableEq, Repr

/-- Model of `types.TimelinePoint`. -/
structure TimelinePoint where
  date : Option String
  timestamp : Option String
  values : Option (List TimelineValue)
deriving DecidableEq, Repr

/-- Model of `types.InterestOverTime`. -/
structure InterestOverTime where
  timeline_data : Option (List TimelinePoint)
deriving DecidableEq, Repr

/-- Model of `types.SearchMetadata`. -/
structure SearchMetadata where
  created_at : Option String
deriving DecidableEq, Repr

/-- Model of `types.SerpApiResponse`. -/
structure SerpApiResponse where
  search_metadata : Option SearchMetadata
  interest_over_time : Option InterestOverTime
  error : Option String
deriving DecidableEq, Repr

/-! ## `serpapi_retry` -/

/-- Test whether `hay` begins with `needle`. -/
def startsWithChars : List Char → List Char → Bool
  | [], _ => true
  | _ :: _, [] => false
  | a :: as, b :: bs => a == b && startsWithChars as bs

/-- Python substring test `needle in hay`, on code-point lists. -/
def containsChars (needle : List Char) : List Char → Bool
  | [] => startsWithChars needle []
  | c :: rest => startsWithChars needle (c :: rest) || containsChars needle rest

/-- Python `needle in hay` on strings. -/
def containsStr (needle hay : String) : Bool :=
  containsChars needle.data hay.data

/-- Python `str.lower()`; the retry vocabulary is pure ASCII, where the
character-wise `Char.toLower` agrees with Python. -/
def pyLower (s : String) : String :=
  ⟨s.data.map Char.toLower⟩

/-- The `transient_keywords` list of `_check_response_for_errors`. -/
def transient_keywords : List String :=
  ["rate limit", "too many requests", "429", "500", "502", "503", "504",
   "server error", "internal error", "temporarily unavailable", "timeout",
   "timed out"]

/-- Network-level exceptions of the HTTP layer
(`requests.exceptions.{ConnectionError, Timeout, ChunkedEncodingError}`). -/
inductive NetException where
  | connectionError
  | requestTimeout
  | chunkedEncodingError
deriving DecidableEq, Repr

/-- Exceptions `fetch_with_retry` can raise: a network-level exception,
`SerpApiTransientError`, or `SerpApiPermanentError`. -/
inductive FetchException where
  | net (e : NetException)
  | serpApiTransientError (msg : String)
  | serpApiPermanentError (msg : String)
deriving DecidableEq, Repr

/-- Model of `retry_if_exception_type((ConnectionError, Timeout, ChunkedEncodingError,
SerpApiTransientError))`: which raised exceptions tenacity retries. -/
def isRetryableException : FetchException → Bool
  | .net _ => true
  | .serpApiTransientError _ => true
  | .serpApiPermanentError _ => false

/-- Model of `_check_response_for_errors`: `none` = returns normally; `some e` = raises
`e`.  A response with an `error` string raises `SerpApiTransientError` when
the lowercased string contains a transient keyword, `SerpApiPermanentError`
otherwise. -/
def check_response_for_errors (results : SerpApiResponse) : Option FetchException :=
  match results.error with
  | none => none
  | some error =>
      if transient_keywords.any (fun kw => containsStr kw (pyLower error)) then
        some (.serpApiTransientError error)
      else
        some (.serpApiPermanentError error)

/-- One underlying `GoogleSearch(params).get_dict()` call: it either raises a
network-level exception or returns a response dict. -/
inductive AttemptOutcome where
  | raised (e : NetException)
  | returned (results : SerpApiResponse)
deriving DecidableEq, Repr

/-- The body of `fetch_with_retry` on one attempt: a network exception
propagates; a returned dict goes through `_check_response_for_errors`. -/
def attemptResult : AttemptOutcome → Except FetchException SerpApiResponse
  | .raised e => .error (.net e)
  | .returned results =>
      match check_response_for_errors results with
      | some e => .error e
      | none => .ok results

/-- The tenacity retry loop of `fetch_with_retry`
(`stop=stop_after_attempt(..)`, `reraise=True`): `attempt` is the 1-based
number of the current attempt and `fuel` the number of retries still allowed
(`stop_after_attempt` bound minus `attempt`).  On failure with no fuel, or on
a non-retryable exception, the last exception is re-raised unchanged.
Returns the outcome and the total number of attempts made. -/
def fetchLoop (call : Nat → AttemptOutcome) :
    Nat → Nat → Except FetchException SerpApiResponse × Nat
  | 0, attempt =>
      match attemptResult (call attempt) with
      | .ok r => (.ok r, attempt)
      | .error e => (.error e, attempt)
  | f + 1, attempt =>
      match attemptResult (call attempt) with
      | .ok r => (.ok r, attempt)
      | .error e =>
          if isRetryableException e then fetchLoop call f (attempt + 1)
          else (.error e, attempt)

/-- Model of `fetch_with_retry` with `stop_after_attempt(5)`: attempt 1 with 4 retries
left.  `call n` is what the `n`-th underlying API call does. -/
def fetch_with_retry (call : Nat → AttemptOutcome) :
    Except FetchException SerpApiResponse × Nat :=
  fetchLoop call 4 1

theorem fetchLoop_succ_error (call : Nat → AttemptOutcome) (f attempt : Nat)
    (e : FetchException) (h : attemptResult (call attempt) = .error e) :
    fetchLoop call (f + 1) attempt
      = if isRetryableException e then fetchLoop call f (attempt + 1)
        else (.error e, attempt) := by
  have hstep : fetchLoop call (f + 1) attempt
      = match attemptResult (call attempt) with
        | .ok r => (.ok r, attempt)
        | .error e =>
            if isRetryableException e then fetchLoop call f (attempt + 1)
            else (.error e, attempt) := rfl
  rw [hstep, h]

theorem fetchLoop_zero_error (call : Nat → AttemptOutcome) (attempt : Nat)
    (e : FetchException) (h : attemptResult (call attempt) = .error e) :
    fetchLoop call 0 attempt = (.error e, attempt) := by
  have hstep : fetchLoop call 0 attempt
      = match attemptResult (call attempt) with
        | .ok r => (.ok r, attempt)
        | .error e => (.error e, attempt) := rfl
  rw [hstep, h]

/-- C2. A permanent failure on the first attempt is raised immediately —
one attempt, zero retries; a retryable failure on every attempt makes exactly
5 attempts and then re-raises the original exception unchanged (not
wrapped). -/
theorem fetch_with_retry_permanent_and_exhaustion :
    (∀ (call : Nat → AttemptOutcome) (msg : String),
        attemptResult (call 1) = .error (.serpApiPermanentError msg) →
        fetch_with_retry call = (.error (.serpApiPermanentError msg), 1))
    ∧
    (∀ (call : Nat → AttemptOutcome) (e : FetchException),
        isRetryableException e = true →
        (∀ n, 1 ≤ n → n ≤ 5 → attemptResult (call n) = .error e) →
        fetch_with_retry call = (.error e, 5)) := by
  constructor
  · intro call msg h
    unfold fetch_with_retry
    show fetchLoop call (3 + 1) 1 = _
    rw [fetchLoop_succ_error call 3 1 _ h]
    rfl
  · intro call e hret h
    unfold fetch_with_retry
    show fetchLoop call (3 + 1) 1 = (.error e, 5)
    rw [fetchLoop_succ_error call 3 1 e (h 1 (by norm_num) (by norm_num)), if_pos hret]
    show fetchLoop call (2 + 1) 2 = (.error e, 5)
    rw [fetchLoop_succ_error call 2 2 e (h 2 (by norm_num) (by norm_num)), if_pos hret]
    show fetchLoop call (1 + 1) 3 = (.error e, 5)
    rw [fetchLoop_succ_error call 1 3 e (h 3 (by norm_num) (by norm_num)), if_pos hret]
    show fetchLoop call (0 + 1) 4 = (.error e, 5)
    rw [fetchLoop_succ_error call 0 4 e (h 4 (by norm_num) (by norm_num)), if_pos hret]
    exact fetchLoop_zero_error call 5 e (h 5 (by norm_num) (by norm_num))

/-- Concrete run of `fetch_with_retry_permanent_and_exhaustion`: an invalid
API key raises permanently on attempt 1; a rate-limit error on every attempt
raises the same exception after attempt 5. -/
theorem fetch_with_retry_permanent_and_exhaustion_witness :
    fetch_with_retry (fun _ => .returned ⟨none, none, some "Invalid API key"⟩)
      = (.error (.serpApiPermanentError "Invalid API key"), 1)
    ∧ fetch_with_retry (fun _ => .returned ⟨none, none, some "rate limit exceeded"⟩)
      = (.error (.serpApiTransientError "rate limit exceeded"), 5) := by
  constructor
  · exact fetch_with_retry_permanent_and_exhaustion.1
      (fun _ => .returned ⟨none, none, some "Invalid API key"⟩) "Invalid API key"
      (by rfl)
  · exact fetch_with_retry_permanent_and_exhaustion.2
      (fun _ => .returned ⟨none, none, some "rate limit exceeded"⟩)
      (.serpApiTransientError "rate limit exceeded") (by rfl)
      (fun n _ _ => by rfl)

/-- tenacity's `wait_exponential(multiplier, min, max)` wait for a given
1-based `attempt_number`:
`max(max(0, min), min(multiplier * 2 ** (attempt_number - 1), max))`. -/
def wait_exponential_tenacity (multiplier mn mx : ℚ) (attemptNumber : Nat) : ℚ :=
  max (max 0 mn) (min (multiplier * 2 ^ (attemptNumber - 1)) mx)

/-- Model of `_add_jitter`: `wait_exponential(multiplier=2, min=2, max=60)` plus
`random.uniform(0, 2)`; the random draw is the explicit argument `jitter`. -/
def add_jitter (attemptNumber : Nat) (jitter : ℚ) : ℚ :=
  wait_exponential_tenacity 2 2 60 attemptNumber + jitter

/-- C3. The wait after failed attempt `k` is `min (2^k) 60 + jitter` with
`jitter ∈ [0, 2]`: it starts at `2` seconds (`k = 1`), doubles with each
successive retry while under the cap, and is capped at `60` seconds. -/
theorem add_jitter_exponential_backoff (k : Nat) (j : ℚ)
    (hk : 1 ≤ k) (hj0 : 0 ≤ j) (hj2 : j ≤ 2) :
    add_jitter k j = min ((2 : ℚ) ^ k) 60 + j
    ∧ add_jitter 1 j = 2 + j
    ∧ ((2 : ℚ) ^ (k + 1) ≤ 60 →
        add_jitter (k + 1) j - j = 2 * (add_jitter k j - j))
    ∧ ((60 : ℚ) ≤ 2 ^ k → add_jitter k j = 60 + j)
    ∧ min ((2 : ℚ) ^ k) 60 ≤ add_jitter k j
    ∧ add_jitter k j ≤ min ((2 : ℚ) ^ k) 60 + 2 := by
  have hpow : ∀ m : Nat, 1 ≤ m →
      wait_exponential_tenacity 2 2 60 m = min ((2 : ℚ) ^ m) 60 := by
    intro m hm
    rw [wait_exponential_tenacity]
    have h2m : (2 : ℚ) * 2 ^ (m - 1) = 2 ^ m := by
      rw [← pow_succ']
      congr 1
      omega
    rw [h2m]
    have hle2 : (2 : ℚ) ≤ min ((2 : ℚ) ^ m) 60 := by
      apply le_min
      · calc (2 : ℚ) = 2 ^ 1 := (pow_one 2).symm
          _ ≤ 2 ^ m := by
            apply pow_le_pow_right₀ one_le_two hm
      · norm_num
    rw [show max (0 : ℚ) 2 = 2 by norm_num, max_eq_right hle2]
  have hself := hpow k hk
  refine ⟨by rw [add_jitter, hself], ?_, ?_, ?_, ?_, ?_⟩
  · rw [add_jitter, hpow 1 le_rfl]
    norm_num
  · intro hcap
    have hk1 := hpow (k + 1) (by omega)
    have hmin1 : min ((2 : ℚ) ^ (k + 1)) 60 = 2 ^ (k + 1) := min_eq_left hcap
    have hcapk : (2 : ℚ) ^ k ≤ 60 := by
      have h1 : (2 : ℚ) ^ k ≤ 2 ^ (k + 1) := by
        apply pow_le_pow_right₀ one_le_two
        omega
      exact le_trans h1 hcap
    have hmink : min ((2 : ℚ) ^ k) 60 = 2 ^ k := min_eq_left hcapk
    rw [add_jitter, add_jitter, hk1, hself, hmin1, hmink]
    ring
  · intro hge
    rw [add_jitter, hself, min_eq_right hge]
  · rw [add_jitter, hself]
    linarith
  · rw [add_jitter, hself]
    linarith

/-- Concrete run of `add_jitter_exponential_backoff`: after failed attempt 3
with jitter 1 the wait is `min (2^3) 60 + 1 = 9` seconds. -/
theorem add_jitter_exponential_backoff_witness :
    add_jitter 3 1 = min ((2 : ℚ) ^ 3) 60 + 1 :=
  (add_jitter_exponential_backoff 3 1 (by norm_num) zero_le_one one_le_two).1

/-- C4. An application-level error string in a successfully returned
response is classified transient iff its lowercasing contains one of the
rate-limit/5xx/timeout keywords, and permanent otherwise; a response without
an error string raises nothing; network-level exceptions are always
retryable, and while attempts remain a network failure leads to the next
attempt. -/
theorem error_classification_transient_iff :
    (∀ (resp : SerpApiResponse) (err : String), resp.error = some err →
        (check_response_for_errors resp = some (.serpApiTransientError err)
          ↔ ∃ kw ∈ transient_keywords, containsStr kw (pyLower err) = true)
        ∧ (check_response_for_errors resp = some (.serpApiPermanentError err)
          ↔ ¬ ∃ kw ∈ transient_keywords, containsStr kw (pyLower err) = true))
    ∧ (∀ resp : SerpApiResponse, resp.error = none →
        check_response_for_errors resp = none)
    ∧ (∀ e : NetException, isRetryableException (.net e) = true)
    ∧ (∀ (call : Nat → AttemptOutcome) (n f : Nat) (e : NetException),
        attemptResult (call n) = .error (.net e) →
        fetchLoop call (f + 1) n = fetchLoop call f (n + 1)) := by
  refine ⟨?_, ?_, ?_, ?_⟩
  · intro resp err herr
    have hcr : check_response_for_errors resp
        = if transient_keywords.any (fun kw => containsStr kw (pyLower err)) then
            some (.serpApiTransientError err)
          else some (.serpApiPermanentError err) := by
      rw [check_response_for_errors, herr]
    rw [hcr]
    by_cases hkw : transient_keywords.any (fun kw => containsStr kw (pyLower err)) = true
    · rw [if_pos hkw]
      rw [List.any_eq_true] at hkw
      constructor
      · exact ⟨fun _ => hkw, fun _ => rfl⟩
      · constructor
        · intro h
          exact absurd h (by simp)
        · intro h
          exact absurd hkw h
    · rw [if_neg hkw]
      rw [List.any_eq_true] at hkw
      constructor
      · constructor
        · intro h
          exact absurd h (by simp)
        · intro h
          exact absurd h hkw
      · exact ⟨fun _ => hkw, fun _ => rfl⟩
  · intro resp herr
    rw [check_response_for_errors, herr]
  · intro e
    rfl
  · intro call n f e h
    rw [fetchLoop_succ_error call f n _ h, if_pos (by rfl)]

/-- Concrete run of `error_classification_transient_iff`: "Too Many Requests"
is transient ("too many requests" is in the vocabulary), "Invalid API key" is
permanent, and a connection error on attempt 1 is retried. -/
theorem error_classification_transient_iff_witness :
    (check_response_for_errors ⟨none, none, some "Too Many Requests"⟩
        = some (.serpApiTransientError "Too Many Requests")
      ↔ ∃ kw ∈ transient_keywords,
          containsStr kw (pyLower "Too Many Requests") = true)
    ∧ (check_response_for_errors ⟨none, none, some "Invalid API key"⟩
        = some (.serpApiPermanentError "Invalid API key")
      ↔ ¬ ∃ kw ∈ transient_keywords,
          containsStr kw (pyLower "Invalid API key") = true)
    ∧ fetchLoop (fun _ => .raised .connectionError) (3 + 1) 1
        = fetchLoop (fun _ => .raised .connectionError) 3 2 := by
  refine ⟨?_, ?_, ?_⟩
  · exact (error_classification_transient_iff.1 ⟨none, none, some "Too Many Requests"⟩
      "Too Many Requests" rfl).1
  · exact (error_classification_transient_iff.1 ⟨none, none, some "Invalid API key"⟩
      "Invalid API key" rfl).2
  · exact error_classification_transient_iff.2.2.2
      (fun _ => .raised .connectionError) 1 3 .connectionError rfl

/-! ## `normalize` -/

/-- Characters Python `str.strip()` / `int()` strip as whitespace (the ASCII
subset, which covers the data handled here). -/
def isPyWs (c : Char) : Bool :=
  c = ' ' || c = '\t' || c = '\n' || c = '\r' || c.toNat = 11 || c.toNat = 12

/-- Strip leading and trailing whitespace from a code-point list. -/
def stripChars (l : List Char) : List Char :=
  ((l.dropWhile isPyWs).reverse.dropWhile isPyWs).reverse

/-- Python `int()` digit grammar after the first digit:
`(["_"] digit)*` — an underscore must sit between two digits. -/
def pyIntDigitsGo : List Char → List Char → Option (List Char)
  | [], acc => some acc.reverse
  | '_' :: c :: rest, acc =>
      if c.isDigit then pyIntDigitsGo rest (c :: acc) else none
  | ['_'], _ => none
  | c :: rest, acc =>
      if c.isDigit then pyIntDigitsGo rest (c :: acc) else none

/-- Python `int()` digit grammar `digit (["_"] digit)*`; the digits with
underscores removed, or `none` when malformed. -/
def pyIntDigits : List Char → Option (List Char)
  | [] => none
  | c :: rest => if c.isDigit then pyIntDigitsGo rest [c] else none

/-- Decimal value of a digit list. -/
def natOfDigits (l : List Char) : Nat :=
  l.foldl (fun n c => 10 * n + (c.toNat - 48)) 0

/-- Python `int(raw)` for strings: optional surrounding whitespace, optional
sign, decimal digits with optional single interior underscores;
`none` models `ValueError`. -/
def pyInt (s : String) : Option Int :=
  match stripChars s.data with
  | '+' :: rest => (pyIntDigits rest).map (fun ds => (natOfDigits ds : Int))
  | '-' :: rest => (pyIntDigits rest).map (fun ds => -(natOfDigits ds : Int))
  | rest => (pyIntDigits rest).map (fun ds => (natOfDigits ds : Int))

/-- Gregorian (year, month, day) of a day count relative to 1970-01-01. -/
def civilFromDays (z0 : Int) : Int × Nat × Nat :=
  let z := z0 + 719468
  let era := Int.ediv z 146097
  let doe := (z - era * 146097).toNat
  let yoe := (doe - doe / 1460 + doe / 36524 - doe / 146096) / 365
  let doy := doe - (365 * yoe + yoe / 4 - yoe / 100)
  let mp := (5 * doy + 2) / 153
  let d := doy - (153 * mp + 2) / 5 + 1
  let m := if mp < 10 then mp + 3 else mp - 9
  let y := (yoe : Int) + era * 400 + (if m ≤ 2 then 1 else 0)
  (y, m, d)

/-- Two-digit zero-padded decimal rendering. -/
def pad2 (n : Nat) : String :=
  if n < 10 then "0" ++ toString n else toString n

/-- Model of `datetime.fromtimestamp(n, tz=timezone.utc).strftime("%Y-%m-%d %H:%M:%S%z")`;
the platform `strftime("%Y")` renders the year unpadded
(year 1 gives `"1-01-01 00:00:00+0000"`). -/
def formatEpochUTC (n : Int) : String :=
  let days := Int.ediv n 86400
  let secs := (Int.emod n 86400).toNat
  let ymd := civilFromDays days
  toString ymd.1.toNat ++ "-" ++ pad2 ymd.2.1 ++ "-" ++ pad2 ymd.2.2 ++ " " ++
    pad2 (secs / 3600) ++ ":" ++ pad2 (secs % 3600 / 60) ++ ":" ++
    pad2 (secs % 60) ++ "+0000"

/-- Smallest epoch second `datetime` accepts (year 1). -/
def epochMinSecond : Int := -62135596800

/-- Largest epoch second `datetime` accepts (end of year 9999). -/
def epochMaxSecond : Int := 253402300799

/-- Model of `normalize._format_timestamp`: `""` stays `""`; a string that `int()`
accepts and that is in `datetime`'s range is rendered
`YYYY-MM-DD HH:MM:SS+0000` (UTC); any other value is returned unchanged
(the `ValueError`/`OSError` fallback). -/
def format_timestamp (raw : String) : String :=
  if raw = "" then ""
  else
    match pyInt raw with
    | none => raw
    | some n =>
        if epochMinSecond ≤ n ∧ n ≤ epochMaxSecond then formatEpochUTC n
        else raw

/-- Greedy bounded digit scan: up to `maxCount` digits; accumulated value,
count of digits taken, rest of the input. -/
def takeDigitsGo : Nat → List Char → Nat → Nat → Nat × Nat × List Char
  | 0, l, v, k => (v, k, l)
  | _ + 1, [], v, k => (v, k, [])
  | m + 1, c :: rest, v, k =>
      if c.isDigit then takeDigitsGo m rest (10 * v + (c.toNat - 48)) (k + 1)
      else (v, k, c :: rest)

/-- Parse 1 to `mx` leading digits, as `strptime`'s
`\d{1,mx}` field patterns. -/
def parseNumericField (mx : Nat) (l : List Char) : Option (Nat × List Char) :=
  let t := takeDigitsGo mx l 0 0
  if t.2.1 = 0 then none else some (t.1, t.2.2)

/-- Expect one literal character. -/
def expectChar (c : Char) : List Char → Option (List Char)
  | [] => none
  | x :: rest => if x = c then some rest else none

/-- Model of `%Z` zone names `strptime` accepts on a UTC host: `UTC`/`GMT`,
case-insensitive, and nothing may follow. -/
def zoneNameOk (l : List Char) : Bool :=
  let low := l.map Char.toLower
  low = ['u', 't', 'c'] || low = ['g', 'm', 't']

/-- Gregorian leap year. -/
def isLeapYear (y : Nat) : Bool :=
  (y % 4 = 0 && y % 100 ≠ 0) || y % 400 = 0

/-- Days in a month, as validated by the `datetime` constructor. -/
def daysInMonth (y m : Nat) : Nat :=
  if m = 2 then (if isLeapYear y then 29 else 28)
  else if m = 4 || m = 6 || m = 9 || m = 11 then 30
  else 31

/-- Parse exactly `n` leading digits: `strptime`'s `%Y` pattern is `\d{4}`,
four digits exactly. -/
def parseExactDigits (n : Nat) (l : List Char) : Option (Nat × List Char) :=
  let t := takeDigitsGo n l 0 0
  if t.2.1 = n then some (t.1, t.2.2) else none

/-- Model of `datetime.strptime(raw, "%Y-%m-%d %H:%M:%S %Z")` including the range
checks the `datetime` constructor performs; `none` models `ValueError`.
`%Y` takes exactly 4 digits, the other numeric fields 1 or 2. -/
def parseSerpApiDatetime (l : List Char) : Option (Nat × Nat × Nat × Nat × Nat × Nat) := do
  let (y, r1) ← parseExactDigits 4 l
  let r2 ← expectChar '-' r1
  let (mo, r3) ← parseNumericField 2 r2
  let r4 ← expectChar '-' r3
  let (d, r5) ← parseNumericField 2 r4
  let r6 ← expectChar ' ' r5
  let (h, r7) ← parseNumericField 2 r6
  let r8 ← expectChar ':' r7
  let (mi, r9) ← parseNumericField 2 r8
  let r10 ← expectChar ':' r9
  let (s, r11) ← parseNumericField 2 r10
  let r12 ← expectChar ' ' r11
  if zoneNameOk r12 then
    if 1 ≤ y ∧ 1 ≤ mo ∧ mo ≤ 12 ∧ 1 ≤ d ∧ d ≤ daysInMonth y mo
        ∧ h ≤ 23 ∧ mi ≤ 59 ∧ s ≤ 59 then
      some (y, mo, d, h, mi, s)
    else none
  else none

/-- Model of `normalize._format_datetime`: `""` stays `""`; a string matching
`%Y-%m-%d %H:%M:%S %Z` is re-rendered `%Y-%m-%d %H:%M:%S%z` with offset
`+0000` (the naive parse is given `tzinfo=timezone.utc`); anything else is
returned unchanged. -/
def format_datetime (raw : String) : String :=
  if raw = "" then ""
  else
    match parseSerpApiDatetime raw.data with
    | none => raw
    | some (y, mo, d, h, mi, s) =>
        toString y ++ "-" ++ pad2 mo ++ "-" ++ pad2 d ++ " " ++
          pad2 h ++ ":" ++ pad2 mi ++ ":" ++ pad2 s ++ "+0000"

/-- Model of `metadata = response.get("search_metadata") or {}` followed by
`created_at = _format_datetime(metadata.get("created_at", ""))`. -/
def createdAtOf (response : SerpApiResponse) : String :=
  format_datetime (match response.search_metadata with
    | none => ""
    | some m => m.created_at.getD "")

/-- The record appended for one value entry of one timeline point:
`query`/`value`/`extracted_value` from the entry with defaults `""`/`""`/`0`,
the passed-through `location`, the point's date, the response-wide
`created_at`. -/
def recordOfValue (created_at location date : String) (val : TimelineValue) :
    TrendRecord :=
  { query := val.query.getD ""
    location := location
    date := date
    value := val.value.getD ""
    extracted_value := val.extracted_value.getD 0
    created_at := created_at }

/-- Model of `normalize.normalize_trends_response`: early empty returns for a falsy
`interest_over_time` or falsy `timeline_data`, then the nested `for` loops
appending one record per (point, value entry), embedded as left folds. -/
def normalize_trends_response (response : SerpApiResponse) (location : String) :
    List TrendRecord :=
  match response.interest_over_time with
  | none => []
  | some interest =>
      match interest.timeline_data with
      | none => []
      | some [] => []
      | some timeline_data =>
          let created_at := createdAtOf response
          timeline_data.foldl (fun records point =>
            let date := format_timestamp (point.timestamp.getD "")
            (point.values.getD []).foldl (fun recs val =>
              recs ++ [recordOfValue created_at location date val]) records) []

/-- The timeline points the normalizer iterates over (empty when
`interest_over_time` or `timeline_data` is absent). -/
def timelineDataOf (response : SerpApiResponse) : List TimelinePoint :=
  match response.interest_over_time with
  | none => []
  | some interest => interest.timeline_data.getD []

/-- The records of one timeline point, value entries in input order. -/
def pointRecords (created_at location : String) (point : TimelinePoint) :
    List TrendRecord :=
  (point.values.getD []).map
    (recordOfValue created_at location (format_timestamp (point.timestamp.getD "")))

theorem foldl_append_singleton {α β : Type} (g : β → α) (init : List α)
    (l : List β) :
    l.foldl (fun acc v => acc ++ [g v]) init = init ++ l.map g := by
  induction l generalizing init with
  | nil => simp
  | cons v vs ih =>
      rw [List.foldl_cons, ih, List.append_assoc]
      rfl

theorem foldl_points (created_at location : String) (init : List TrendRecord)
    (pts : List TimelinePoint) :
    pts.foldl (fun records point =>
        (point.values.getD []).foldl (fun recs val =>
          recs ++ [recordOfValue created_at location
            (format_timestamp (point.timestamp.getD "")) val]) records) init
      = init ++ pts.flatMap (pointRecords created_at location) := by
  induction pts generalizing init with
  | nil => simp
  | cons p ps ih =>
      rw [List.foldl_cons, foldl_append_singleton, ih, List.append_assoc]
      rfl

/-- The imperative accumulation equals the point-major, value-minor
flattening. -/
theorem normalize_eq_flatMap (response : SerpApiResponse) (location : String) :
    normalize_trends_response response location
      = (timelineDataOf response).flatMap
          (pointRecords (createdAtOf response) location) := by
  cases response with
  | mk sm io err =>
      cases io with
      | none => rfl
      | some interest =>
          cases interest with
          | mk td =>
              cases td with
              | none => rfl
              | some pts =>
                  cases pts with
                  | nil => rfl
                  | cons p ps =>
                      exact (foldl_points
                        (createdAtOf ⟨sm, some ⟨some (p :: ps)⟩, err⟩) location []
                        (p :: ps)).trans (List.nil_append _)

/-- C6. Every emitted record takes `query`/`value`/`extracted_value` from
its value entry with defaults `""`/`""`/`0`, its date from the point's
(formatted) timestamp with default `""`, its `location` from the argument,
and a `created_at` computed once from the top-level search metadata — hence
identical on every record of the response. -/
theorem normalize_record_provenance (response : SerpApiResponse)
    (location : String) (r : TrendRecord)
    (h : r ∈ normalize_trends_response response location) :
    r.location = location
    ∧ r.created_at = createdAtOf response
    ∧ format_timestamp "" = ""
    ∧ ∃ point ∈ timelineDataOf response, ∃ val ∈ point.values.getD [],
        r = recordOfValue (createdAtOf response) location
              (format_timestamp (point.timestamp.getD "")) val := by
  rw [normalize_eq_flatMap] at h
  obtain ⟨point, hp, hr⟩ := List.mem_flatMap.mp h
  rw [pointRecords] at hr
  obtain ⟨val, hv, heq⟩ := List.mem_map.mp hr
  subst heq
  exact ⟨rfl, rfl, rfl, point, hp, val, hv, rfl⟩

/-- Concrete run of `normalize_record_provenance` on a one-point, one-value
response. -/
theorem normalize_record_provenance_witness :
    (⟨"vpn", "US", format_timestamp "1704067200", "5", 5,
        createdAtOf ⟨some ⟨some "2024-01-15 10:30:00 UTC"⟩,
          some ⟨some [⟨some "W1", some "1704067200",
            some [⟨some "vpn", some "5", some 5⟩]⟩]⟩, none⟩⟩ : TrendRecord).location
      = "US"
    ∧ format_timestamp "" = "" := by
  have h := normalize_record_provenance
    ⟨some ⟨some "2024-01-15 10:30:00 UTC"⟩,
      some ⟨some [⟨some "W1", some "1704067200",
        some [⟨some "vpn", some "5", some 5⟩]⟩]⟩, none⟩ "US"
    ⟨"vpn", "US", format_timestamp "1704067200", "5", 5,
      createdAtOf ⟨some ⟨some "2024-01-15 10:30:00 UTC"⟩,
        some ⟨some [⟨some "W1", some "1704067200",
          some [⟨some "vpn", some "5", some 5⟩]⟩]⟩, none⟩⟩
    (by decide)
  exact ⟨h.1, h.2.2.1⟩

/-! ## `validation` -/

/-- A trend record as the validator's DataFrame sees it: a `none` field is a
missing key / `NaN` cell. -/
structure VRecord where
  query : Option String
  location : Option String
  date : Option String
  value : Option String
  extracted_value : Option Int
  created_at : Option String
deriving DecidableEq, Repr

/-- Model of `types.ValidationReport`. -/
structure ValidationReport where
  record_count : Nat
  schema_errors : List String
  coverage_gaps : List String
  anomalies : List String
  valid : Bool
deriving DecidableEq, Repr

/-- The ASCII single-quote character (code point 39) used in the f-string
messages. -/
def sq : String := String.singleton (Char.ofNat 39)

/-- Python `str` of a list of strings, as interpolated into the f-string
messages; the data here holds no quotes or escapes. -/
def pyStrList (l : List String) : String :=
  "[" ++ String.intercalate ", " (l.map (fun s => sq ++ s ++ sq)) ++ "]"

/-- String order used by Python `sorted` / pandas `groupby` key sorting:
code-point lexicographic. -/
def strDataLe (a b : String) : Prop := a.data ≤ b.data

instance : DecidableRel strDataLe :=
  fun a b => inferInstanceAs (Decidable (a.data ≤ b.data))

instance : IsTotal String strDataLe := ⟨fun a b => le_total a.data b.data⟩

instance : IsTrans String strDataLe := ⟨fun _ _ _ h1 h2 => le_trans h1 h2⟩

/-- Python `sorted` on strings. -/
def pySorted (l : List String) : List String := List.insertionSort strDataLe l

/-- The distinct `date` values `df.groupby("date")` iterates over, in sorted
order (pandas sorts group keys; `NaN` dates are dropped). -/
def distinctDates (records : List VRecord) : List String :=
  pySorted (records.filterMap (fun r => r.date)).dedup

/-- Model of `expected - present` at one date, as the sorted list `sorted(missing)`:
the expected terms (as a set) that appear as no record's `query` at that
date. -/
def missingTermsAt (records : List VRecord) (expected : List String)
    (dt : String) : List String :=
  pySorted (expected.dedup.filter (fun t =>
    !records.any (fun r => decide (r.date = some dt) && decide (r.query = some t))))

/-- Model of `f"Date {dt}: missing search terms {sorted(missing)}"`. -/
def coverageMsg (dt : String) (missing : List String) : String :=
  "Date " ++ dt ++ ": missing search terms " ++ pyStrList missing

/-- One `groupby` iteration of `_check_search_term_coverage`. -/
def covStep (records : List VRecord) (expected : List String)
    (rep : ValidationReport) (dt : String) : ValidationReport :=
  let missing := missingTermsAt records expected dt
  if missing = [] then rep
  else { rep with
          coverage_gaps := rep.coverage_gaps ++ [coverageMsg dt missing]
          valid := false }

/-- Model of `_check_search_term_coverage`: the `query` and `date` columns always
exist in this embedding, so the early return is never taken. -/
def check_search_term_coverage (records : List VRecord) (expected : List String)
    (report : ValidationReport) : ValidationReport :=
  (distinctDates records).foldl (covStep records expected) report

/-- The DataFrame column names, in `TrendRecord` field order. -/
def colNames : List String :=
  ["query", "location", "date", "value", "extracted_value", "created_at"]

/-- Python `s.strip() == ""`. -/
def isBlank (s : String) : Bool := stripChars s.data = []

/-- Null/empty count of a string column: `NaN` cells plus whitespace-only
cells (`astype(str)` turns `NaN` into `"nan"`, which is not blank). -/
def strColNullCount (records : List VRecord) (f : VRecord → Option String) : Nat :=
  records.countP (fun r => decide (f r = none))
    + records.countP (fun r => match f r with
        | some s => isBlank s
        | none => false)

/-- Per-column null/empty count of `_check_null_values`: string columns count
nulls and blank strings, the numeric `extracted_value` column counts only
nulls. -/
def colNullCount (records : List VRecord) : String → Nat
  | "query" => strColNullCount records (fun r => r.query)
  | "location" => strColNullCount records (fun r => r.location)
  | "date" => strColNullCount records (fun r => r.date)
  | "value" => strColNullCount records (fun r => r.value)
  | "extracted_value" => records.countP (fun r => decide (r.extracted_value = none))
  | "created_at" => strColNullCount records (fun r => r.created_at)
  | _ => 0

/-- Model of `f"Column '{col}' has {total} null/empty value(s)"`. -/
def nullMsg (col : String) (n : Nat) : String :=
  "Column " ++ sq ++ col ++ sq ++ " has " ++ toString n ++ " null/empty value(s)"

/-- One column iteration of `_check_null_values`. -/
def nullStep (records : List VRecord) (rep : ValidationReport)
    (col : String) : ValidationReport :=
  let n := colNullCount records col
  if 0 < n then
    { rep with
        anomalies := rep.anomalies ++ [nullMsg col n]
        valid := false }
  else rep

/-- Model of `_check_null_values`. -/
def check_null_values (records : List VRecord) (report : ValidationReport) :
    ValidationReport :=
  colNames.foldl (nullStep records) report

/-- Model of `(df["extracted_value"] == 0).sum()` (a `NaN` cell compares unequal). -/
def zeroCount (records : List VRecord) : Nat :=
  records.countP (fun r => decide (r.extracted_value = some 0))

/-- Model of `f"{zero_count} record(s) with zero extracted_value"`. -/
def zeroMsg (n : Nat) : String :=
  toString n ++ " record(s) with zero extracted_value"

/-- Model of `_check_zero_extracted_values`: appends one anomaly when the count is
nonzero and never touches `valid`. -/
def check_zero_extracted_values (records : List VRecord)
    (report : ValidationReport) : ValidationReport :=
  let n := zeroCount records
  if 0 < n then { report with anomalies := report.anomalies ++ [zeroMsg n] }
  else report

/-- Model of `_check_empty_date_range_gaps`: the record schema has no `timestamp` or
`date_range` column, so the guard
`if "timestamp" not in df.columns or "date_range" not in df.columns: return`
makes the check a no-op over these records. -/
def check_empty_date_range_gaps (report : ValidationReport) : ValidationReport :=
  report

/-- Model of `_check_anomalies`: null check, zero check, date-range-gap check, in
order. -/
def check_anomalies (records : List VRecord) (report : ValidationReport) :
    ValidationReport :=
  check_empty_date_range_gaps
    (check_zero_extracted_values records (check_null_values records report))

/-- Model of `_check_schema`: the embedding's DataFrame has exactly the six declared
columns (`set(df.columns) == set(EXPECTED_SCHEMA)`) with object/int dtypes
matching the expected string/numeric kinds, so neither the missing/extra
comparison nor the per-column dtype check appends an error.  Caveat: a column
that is entirely null shifts the pandas dtype and can trigger a real dtype
error, so this identity is faithful only where the theorems use it — under
their no-null hypotheses; no theorem asserts `schema_errors = []` outside
them. -/
def check_schema (report : ValidationReport) : ValidationReport := report

/-- Model of `validation.validate_trends_data`: builds the fresh report, short-circuits
an empty batch to `valid=false`, else runs schema, coverage and anomaly
checks in order. -/
def validate_trends_data (records : List VRecord)
    (expected_search_terms : List String) : ValidationReport :=
  let report : ValidationReport := ⟨records.length, [], [], [], true⟩
  if records = [] then { report with valid := false }
  else
    check_anomalies records
      (check_search_term_coverage records expected_search_terms
        (check_schema report))

theorem foldl_rep_invariant {α : Type} (P : ValidationReport → Prop)
    (step : ValidationReport → α → ValidationReport)
    (hstep : ∀ rep a, P rep → P (step rep a)) :
    ∀ (l : List α) (rep : ValidationReport), P rep → P (l.foldl step rep) := by
  intro l
  induction l with
  | nil => intro rep h; exact h
  | cons a as ih =>
      intro rep h
      exact ih _ (hstep rep a h)

theorem covStep_record_count (records : List VRecord) (expected : List String)
    (rep : ValidationReport) (dt : String) :
    (covStep records expected rep dt).record_count = rep.record_count := by
  rw [covStep]
  split <;> rfl

theorem nullStep_record_count (records : List VRecord) (rep : ValidationReport)
    (col : String) :
    (nullStep records rep col).record_count = rep.record_count := by
  rw [nullStep]
  split <;> rfl

theorem check_zero_record_count (records : List VRecord)
    (rep : ValidationReport) :
    (check_zero_extracted_values records rep).record_count = rep.record_count := by
  rw [check_zero_extracted_values]
  split <;> rfl

/-- C7. `validate_trends_data` is a total function of its inputs (the
embedding of "never raises"), reporting `record_count = len(records)` for
every input; on the empty batch it returns `record_count = 0`,
`valid = false`, and all three finding lists present and empty. -/
theorem validate_empty_and_total :
    (∀ terms : List String,
        validate_trends_data [] terms
          = { record_count := 0
              schema_errors := []
              coverage_gaps := []
              anomalies := []
              valid := false })
    ∧ (∀ (records : List VRecord) (terms : List String),
        (validate_trends_data records terms).record_count = records.length) := by
  constructor
  · intro terms
    rfl
  · intro records terms
    by_cases h : records = []
    · rw [h]
      rfl
    · rw [validate_trends_data, if_neg h, check_anomalies,
        check_empty_date_range_gaps, check_zero_record_count,
        check_null_values, check_schema, check_search_term_coverage]
      have h1 := foldl_rep_invariant
        (fun rep => rep.record_count = records.length) (nullStep records)
        (fun rep col hp => by
          show (nullStep records rep col).record_count = records.length
          rw [nullStep_record_count]
          exact hp) colNames
      have h2 := foldl_rep_invariant
        (fun rep => rep.record_count = records.length)
        (covStep records terms)
        (fun rep dt hp => by
          show (covStep records terms rep dt).record_count = records.length
          rw [covStep_record_count]
          exact hp)
        (distinctDates records)
      exact h1 _ (h2 _ rfl)

/-- Concrete run of `validate_empty_and_total`: the empty batch gives the
all-empty invalid report, and a one-record batch reports `record_count = 1`. -/
theorem validate_empty_and_total_witness :
    validate_trends_data [] ["vpn"]
      = { record_count := 0
          schema_errors := []
          coverage_gaps := []
          anomalies := []
          valid := false }
    ∧ (validate_trends_data
        [⟨some "vpn", some "US", some "W1", some "5", some 5, some "t"⟩]
        ["vpn"]).record_count = 1 := by
  constructor
  · exact validate_empty_and_total.1 ["vpn"]
  · exact validate_empty_and_total.2
      [⟨some "vpn", some "US", some "W1", some "5", some 5, some "t"⟩] ["vpn"]

theorem covStep_id (records : List VRecord) (expected : List String)
    (rep : ValidationReport) (dt : String)
    (h : missingTermsAt records expected dt = []) :
    covStep records expected rep dt = rep := by
  simp only [covStep]
  rw [if_pos h]

theorem covStep_pos (records : List VRecord) (expected : List String)
    (rep : ValidationReport) (dt : String)
    (h : missingTermsAt records expected dt ≠ []) :
    covStep records expected rep dt
      = { rep with
            coverage_gaps := rep.coverage_gaps
              ++ [coverageMsg dt (missingTermsAt records expected dt)]
            valid := false } := by
  simp only [covStep]
  rw [if_neg h]

theorem covStep_valid_false (records : List VRecord) (expected : List String)
    (rep : ValidationReport) (dt : String) (h : rep.valid = false) :
    (covStep records expected rep dt).valid = false := by
  by_cases hm : missingTermsAt records expected dt = []
  · rw [covStep_id records expected rep dt hm]
    exact h
  · rw [covStep_pos records expected rep dt hm]

theorem covStep_anomalies (records : List VRecord) (expected : List String)
    (rep : ValidationReport) (dt : String) :
    (covStep records expected rep dt).anomalies = rep.anomalies := by
  by_cases hm : missingTermsAt records expected dt = []
  · rw [covStep_id records expected rep dt hm]
  · rw [covStep_pos records expected rep dt hm]

theorem covFold_gaps (records : List VRecord) (expected : List String) :
    ∀ (dates : List String) (rep : ValidationReport),
    (dates.foldl (covStep records expected) rep).coverage_gaps
      = rep.coverage_gaps
        ++ (dates.filter
              (fun dt => decide (missingTermsAt records expected dt ≠ []))).map
            (fun dt => coverageMsg dt (missingTermsAt records expected dt)) := by
  intro dates
  induction dates with
  | nil => intro rep; simp
  | cons dt ds ih =>
      intro rep
      rw [List.foldl_cons, ih]
      by_cases hm : missingTermsAt records expected dt = []
      · rw [covStep_id records expected rep dt hm, List.filter_cons,
          if_neg (by simp [hm])]
      · rw [covStep_pos records expected rep dt hm, List.filter_cons,
          if_pos (by simp [hm]), List.map_cons, List.append_assoc]
        rfl

theorem covFold_anoms (records : List VRecord) (expected : List String) :
    ∀ (dates : List String) (rep : ValidationReport),
    (dates.foldl (covStep records expected) rep).anomalies = rep.anomalies := by
  intro dates
  induction dates with
  | nil => intro rep; rfl
  | cons dt ds ih =>
      intro rep
      rw [List.foldl_cons, ih, covStep_anomalies]

theorem covFold_id (records : List VRecord) (expected : List String) :
    ∀ (dates : List String) (rep : ValidationReport),
    (∀ dt ∈ dates, missingTermsAt records expected dt = []) →
    dates.foldl (covStep records expected) rep = rep := by
  intro dates
  induction dates with
  | nil => intro rep _; rfl
  | cons dt ds ih =>
      intro rep h
      rw [List.foldl_cons, covStep_id records expected rep dt (h dt (by simp))]
      exact ih rep (fun d hd => h d (by simp [hd]))

theorem covFold_valid_false (records : List VRecord) (expected : List String) :
    ∀ (dates : List String) (rep : ValidationReport) (dt : String),
    dt ∈ dates → missingTermsAt records expected dt ≠ [] →
    (dates.foldl (covStep records expected) rep).valid = false := by
  intro dates
  induction dates with
  | nil => intro rep dt h; exact absurd h (by simp)
  | cons d ds ih =>
      intro rep dt hmem hne
      rw [List.foldl_cons]
      rcases List.mem_cons.mp hmem with heq | hmem'
      · subst heq
        exact foldl_rep_invariant (fun r => r.valid = false)
          (covStep records expected)
          (fun r a hp => covStep_valid_false records expected r a hp) ds _
          (by rw [covStep_pos records expected rep dt hne])
      · exact ih (covStep records expected rep d) dt hmem' hne

theorem nullStep_id (records : List VRecord) (rep : ValidationReport)
    (col : String) (h : colNullCount records col = 0) :
    nullStep records rep col = rep := by
  simp only [nullStep]
  rw [if_neg (by rw [h]; exact lt_irrefl 0)]

theorem nullStep_pos (records : List VRecord) (rep : ValidationReport)
    (col : String) (h : 0 < colNullCount records col) :
    nullStep records rep col
      = { rep with
            anomalies := rep.anomalies ++ [nullMsg col (colNullCount records col)]
            valid := false } := by
  simp only [nullStep]
  rw [if_pos h]

theorem nullStep_valid_false (records : List VRecord) (rep : ValidationReport)
    (col : String) (h : rep.valid = false) :
    (nullStep records rep col).valid = false := by
  by_cases hc : 0 < colNullCount records col
  · rw [nullStep_pos records rep col hc]
  · rw [nullStep_id records rep col (by omega)]
    exact h

theorem nullStep_coverage (records : List VRecord) (rep : ValidationReport)
    (col : String) :
    (nullStep records rep col).coverage_gaps = rep.coverage_gaps := by
  by_cases hc : 0 < colNullCount records col
  · rw [nullStep_pos records rep col hc]
  · rw [nullStep_id records rep col (by omega)]

theorem nullFold_anoms (records : List VRecord) :
    ∀ (cols : List String) (rep : ValidationReport),
    (cols.foldl (nullStep records) rep).anomalies
      = rep.anomalies
        ++ (cols.filter (fun c => decide (0 < colNullCount records c))).map
            (fun c => nullMsg c (colNullCount records c)) := by
  intro cols
  induction cols with
  | nil => intro rep; simp
  | cons c cs ih =>
      intro rep
      rw [List.foldl_cons, ih]
      by_cases hc : 0 < colNullCount records c
      · rw [nullStep_pos records rep c hc, List.filter_cons,
          if_pos (by simpa using hc), List.map_cons, List.append_assoc]
        rfl
      · rw [nullStep_id records rep c (by omega), List.filter_cons,
          if_neg (by simpa using hc)]

theorem nullFold_coverage (records : List VRecord) :
    ∀ (cols : List String) (rep : ValidationReport),
    (cols.foldl (nullStep records) rep).coverage_gaps = rep.coverage_gaps := by
  intro cols
  induction cols with
  | nil => intro rep; rfl
  | cons c cs ih =>
      intro rep
      rw [List.foldl_cons, ih, nullStep_coverage]

theorem nullFold_id (records : List VRecord) :
    ∀ (cols : List String) (rep : ValidationReport),
    (∀ c ∈ cols, colNullCount records c = 0) →
    cols.foldl (nullStep records) rep = rep := by
  intro cols
  induction cols with
  | nil => intro rep _; rfl
  | cons c cs ih =>
      intro rep h
      rw [List.foldl_cons, nullStep_id records rep c (h c (by simp))]
      exact ih rep (fun d hd => h d (by simp [hd]))

theorem nullFold_valid_false (records : List VRecord) :
    ∀ (cols : List String) (rep : ValidationReport) (col : String),
    col ∈ cols → 0 < colNullCount records col →
    (cols.foldl (nullStep records) rep).valid = false := by
  intro cols
  induction cols with
  | nil => intro rep col h; exact absurd h (by simp)
  | cons c cs ih =>
      intro rep col hmem hc
      rw [List.foldl_cons]
      rcases List.mem_cons.mp hmem with heq | hmem'
      · subst heq
        exact foldl_rep_invariant (fun r => r.valid = false) (nullStep records)
          (fun r a hp => nullStep_valid_false records r a hp) cs _
          (by rw [nullStep_pos records rep col hc])
      · exact ih (nullStep records rep c) col hmem' hc

theorem check_zero_id (records : List VRecord) (rep : ValidationReport)
    (h : zeroCount records = 0) :
    check_zero_extracted_values records rep = rep := by
  simp only [check_zero_extracted_values]
  rw [if_neg (by rw [h]; exact lt_irrefl 0)]

theorem check_zero_pos (records : List VRecord) (rep : ValidationReport)
    (h : 0 < zeroCount records) :
    check_zero_extracted_values records rep
      = { rep with anomalies := rep.anomalies ++ [zeroMsg (zeroCount records)] } := by
  simp only [check_zero_extracted_values]
  rw [if_pos h]

theorem check_zero_valid (records : List VRecord) (rep : ValidationReport) :
    (check_zero_extracted_values records rep).valid = rep.valid := by
  by_cases h : 0 < zeroCount records
  · rw [check_zero_pos records rep h]
  · rw [check_zero_id records rep (by omega)]

theorem check_zero_coverage (records : List VRecord) (rep : ValidationReport) :
    (check_zero_extracted_values records rep).coverage_gaps = rep.coverage_gaps := by
  by_cases h : 0 < zeroCount records
  · rw [check_zero_pos records rep h]
  · rw [check_zero_id records rep (by omega)]

theorem check_zero_anoms_mono (records : List VRecord) (rep : ValidationReport)
    (x : String) (h : x ∈ rep.anomalies) :
    x ∈ (check_zero_extracted_values records rep).anomalies := by
  by_cases hz : 0 < zeroCount records
  · rw [check_zero_pos records rep hz]
    exact List.mem_append_left _ h
  · rw [check_zero_id records rep (by omega)]
    exact h

/-- C8. A nonzero count of `extracted_value == 0` records appends exactly
one anomaly and leaves `valid = true` absent other defects, while a nonzero
null/empty count for any column appends an anomaly naming that column's
count and forces `valid = false`. -/
theorem zero_anomaly_vs_null_anomaly :
    (∀ (records : List VRecord) (terms : List String),
        records ≠ [] →
        (∀ c ∈ colNames, colNullCount records c = 0) →
        (∀ dt ∈ distinctDates records, missingTermsAt records terms dt = []) →
        0 < zeroCount records →
        validate_trends_data records terms
          = { record_count := records.length
              schema_errors := []
              coverage_gaps := []
              anomalies := [zeroMsg (zeroCount records)]
              valid := true })
    ∧ (∀ (records : List VRecord) (terms : List String) (col : String),
        records ≠ [] → col ∈ colNames → 0 < colNullCount records col →
        nullMsg col (colNullCount records col)
            ∈ (validate_trends_data records terms).anomalies
        ∧ (validate_trends_data records terms).valid = false) := by
  constructor
  · intro records terms hne hnull hcov hz
    rw [validate_trends_data, if_neg hne, check_anomalies,
      check_empty_date_range_gaps, check_schema, check_search_term_coverage,
      covFold_id records terms (distinctDates records) _ hcov,
      check_null_values, nullFold_id records colNames _ hnull,
      check_zero_pos records _ hz]
    rfl
  · intro records terms col hne hmem hc
    rw [validate_trends_data, if_neg hne, check_anomalies,
      check_empty_date_range_gaps, check_schema]
    constructor
    · apply check_zero_anoms_mono
      rw [check_null_values, nullFold_anoms records colNames _,
        check_search_term_coverage, covFold_anoms records terms]
      apply List.mem_append_right
      exact List.mem_map_of_mem _
        (List.mem_filter.mpr ⟨hmem, by simpa using hc⟩)
    · rw [check_zero_valid, check_null_values]
      exact nullFold_valid_false records colNames _ col hmem hc

/-- Concrete run of `zero_anomaly_vs_null_anomaly`: a fully-populated record
with `extracted_value = 0` yields one zero anomaly and a valid report; a
record with a missing `query` yields the query null anomaly and an invalid
report. -/
theorem zero_anomaly_vs_null_anomaly_witness :
    validate_trends_data
        [⟨some "vpn", some "US", some "W1", some "0", some 0, some "t"⟩] ["vpn"]
      = { record_count := 1
          schema_errors := []
          coverage_gaps := []
          anomalies := [zeroMsg 1]
          valid := true }
    ∧ nullMsg "query" 1
        ∈ (validate_trends_data
            [⟨none, some "US", some "W1", some "5", some 5, some "t"⟩] []).anomalies
    ∧ (validate_trends_data
        [⟨none, some "US", some "W1", some "5", some 5, some "t"⟩] []).valid
      = false := by
  refine ⟨?_, ?_, ?_⟩
  · exact zero_anomaly_vs_null_anomaly.1
      [⟨some "vpn", some "US", some "W1", some "0", some 0, some "t"⟩] ["vpn"]
      (by simp) (by decide) (by decide) (by decide)
  · exact (zero_anomaly_vs_null_anomaly.2
      [⟨none, some "US", some "W1", some "5", some 5, some "t"⟩] [] "query"
      (by simp) (by decide) (by decide)).1
  · exact (zero_anomaly_vs_null_anomaly.2
      [⟨none, some "US", some "W1", some "5", some 5, some "t"⟩] [] "query"
      (by simp) (by decide) (by decide)).2

/-- C9. The coverage gaps are exactly one sorted-missing-terms message
per distinct date (dates are distinct and sorted) at which some expected term
is absent; a fully covered record set yields no gaps even with extra query
values; any gap forces `valid = false`. -/
theorem coverage_gap_messages :
    (∀ (records : List VRecord) (terms : List String),
        records ≠ [] →
        (validate_trends_data records terms).coverage_gaps
          = ((distinctDates records).filter
              (fun dt => decide (missingTermsAt records terms dt ≠ []))).map
              (fun dt => coverageMsg dt (missingTermsAt records terms dt)))
    ∧ (∀ records : List VRecord, (distinctDates records).Nodup)
    ∧ (∀ (records : List VRecord) (terms : List String),
        records ≠ [] →
        (∀ dt ∈ distinctDates records, ∀ t ∈ terms,
          ∃ r ∈ records, r.date = some dt ∧ r.query = some t) →
        (validate_trends_data records terms).coverage_gaps = [])
    ∧ (∀ (records : List VRecord) (terms : List String) (dt : String),
        records ≠ [] → dt ∈ distinctDates records →
        missingTermsAt records terms dt ≠ [] →
        (validate_trends_data records terms).valid = false) := by
  have hgaps : ∀ (records : List VRecord) (terms : List String),
      records ≠ [] →
      (validate_trends_data records terms).coverage_gaps
        = ((distinctDates records).filter
            (fun dt => decide (missingTermsAt records terms dt ≠ []))).map
            (fun dt => coverageMsg dt (missingTermsAt records terms dt)) := by
    intro records terms hne
    rw [validate_trends_data, if_neg hne, check_anomalies,
      check_empty_date_range_gaps, check_zero_coverage, check_null_values,
      nullFold_coverage, check_search_term_coverage, covFold_gaps,
      check_schema]
    rfl
  have hmissing : ∀ (records : List VRecord) (terms : List String),
      (∀ dt ∈ distinctDates records, ∀ t ∈ terms,
        ∃ r ∈ records, r.date = some dt ∧ r.query = some t) →
      ∀ dt ∈ distinctDates records, missingTermsAt records terms dt = [] := by
    intro records terms h dt hdt
    rw [missingTermsAt]
    have hf : terms.dedup.filter (fun t =>
        !records.any (fun r => decide (r.date = some dt) && decide (r.query = some t)))
        = [] := by
      rw [List.filter_eq_nil_iff]
      intro t ht
      obtain ⟨r, hr, hd, hq⟩ := h dt hdt t (List.mem_dedup.mp ht)
      have : records.any
          (fun r => decide (r.date = some dt) && decide (r.query = some t)) = true :=
        List.any_eq_true.mpr ⟨r, hr, by simp [hd, hq]⟩
      simp [this]
    rw [hf]
    rfl
  refine ⟨hgaps, ?_, ?_, ?_⟩
  · intro records
    rw [distinctDates, pySorted]
    exact ((List.perm_insertionSort strDataLe _).nodup_iff).mpr
      (List.nodup_dedup _)
  · intro records terms hne hcov
    rw [hgaps records terms hne]
    have : (distinctDates records).filter
        (fun dt => decide (missingTermsAt records terms dt ≠ [])) = [] := by
      rw [List.filter_eq_nil_iff]
      intro dt hdt
      simp [hmissing records terms hcov dt hdt]
    rw [this]
    rfl
  · intro records terms dt hne hdt hmiss
    rw [validate_trends_data, if_neg hne, check_anomalies,
      check_empty_date_range_gaps, check_zero_valid, check_null_values,
      check_schema]
    apply foldl_rep_invariant (fun r => r.valid = false) (nullStep records)
      (fun r a hp => nullStep_valid_false records r a hp) colNames
    rw [check_search_term_coverage]
    exact covFold_valid_false records terms (distinctDates records) _ dt hdt hmiss

/-- Concrete runs of `coverage_gap_messages`: a batch covering term "vpn" at
its one date (with an extra query "crm" not in the expected terms) has no
gaps; a batch missing "antivirus" at date "W1" has exactly the one sorted
message and an invalid report. -/
theorem coverage_gap_messages_witness :
    (validate_trends_data
        [⟨some "vpn", some "US", some "W1", some "5", some 5, some "t"⟩,
         ⟨some "crm", some "US", some "W1", some "4", some 4, some "t"⟩]
        ["vpn"]).coverage_gaps = []
    ∧ (validate_trends_data
        [⟨some "vpn", some "US", some "W1", some "5", some 5, some "t"⟩]
        ["vpn", "antivirus"]).coverage_gaps
      = ((distinctDates
            [⟨some "vpn", some "US", some "W1", some "5", some 5, some "t"⟩]).filter
          (fun dt => decide (missingTermsAt
            [⟨some "vpn", some "US", some "W1", some "5", some 5, some "t"⟩]
            ["vpn", "antivirus"] dt ≠ []))).map
          (fun dt => coverageMsg dt (missingTermsAt
            [⟨some "vpn", some "US", some "W1", some "5", some 5, some "t"⟩]
            ["vpn", "antivirus"] dt))
    ∧ (validate_trends_data
        [⟨some "vpn", some "US", some "W1", some "5", some 5, some "t"⟩]
        ["vpn", "antivirus"]).valid = false := by
  refine ⟨?_, ?_, ?_⟩
  · exact coverage_gap_messages.2.2.1
      [⟨some "vpn", some "US", some "W1", some "5", some 5, some "t"⟩,
       ⟨some "crm", some "US", some "W1", some "4", some 4, some "t"⟩]
      ["vpn"] (by simp) (by decide)
  · exact coverage_gap_messages.1
      [⟨some "vpn", some "US", some "W1", some "5", some 5, some "t"⟩]
      ["vpn", "antivirus"] (by simp)
  · exact coverage_gap_messages.2.2.2
      [⟨some "vpn", some "US", some "W1", some "5", some 5, some "t"⟩]
      ["vpn", "antivirus"] "W1" (by simp) (by decide) (by decide)

end DeTrial
